import Mathlib

/-!
Shallow embedding of `src/agentnet/agent/mdp_agent.py` (the `MDPAgent` class:
`get_agent_reaction` and the rollout engine `get_sessions`).

Modelling conventions: a tensor with a leading batch axis is a `List γ`, one
entry per batch row, with `γ` the otherwise opaque contents of one row.  The
time-major sequences that `unroll_scan` stacks are `List (List γ)`
([time][batch]).  The lasagne backend (per-layer symbolic evaluation,
`T.zeros`, `lasagne.layers.get_output_shape`) is abstracted by `Backend`;
`T.zeros([batch_size, k])` with `batch_size = None` fails in theano, which the
model renders as `Option`.
-/

namespace AgentNet

/-- Abstract lasagne backend: `evalL` is `lasagne.layers.get_output` restricted
to a single layer, `zrow k` is one batch row of `T.zeros([batch_size, k])`, and
`output_shape` summarizes `lasagne.layers.get_output_shape(layer)[1:]` as a
feature size. -/
structure Backend (L I F γ : Type) where
  evalL : L → I → F → List γ
  zrow : Nat → γ
  output_shape : L → Nat

/-- `lasagne.layers.get_output(layer_or_layers, inputs, **flags)` on a list of
layers: one output per requested layer, in request order. -/
def get_output {L I F γ : Type} (bk : Backend L I F γ) (layers : List L) (inputs : I)
    (flags : F) : List (List γ) :=
  layers.map (fun l => bk.evalL l inputs flags)

/-- The `MDPAgent` object: the three layer handles, the resolved `input_map`,
and the `history` attribute that `get_sessions` stores on `self` (absent, i.e.
`none`, before the first call). -/
structure MDPAgent (L I γ : Type) where
  memory : L
  policy : L
  resolver : L
  input_map : List γ → List γ → I
  history : Option (List (List (List γ)))

/-- `BaseEnvironment`: declared sizes (used for zero-fill) and the transition
`get_action_results(env_state, action, time_tick)`. -/
structure Environment (γ : Type) where
  state_size : Nat
  observation_size : Nat
  get_action_results : List γ → List γ → Nat → List γ × List γ

/-- The values returned by `get_agent_reaction`. -/
structure Reaction (γ : Type) where
  hidden : List γ
  policy : List γ
  action : List γ
  additional_outputs : List (List γ)

/-- `get_agent_reaction` (mdp_agent.py lines 41-65): evaluate
`[self.memory, self.policy, self.resolver] + additional_outputs` on
`self.input_map(last_memory_state, observation)`, unpack
`hidden, policy, action = outputs[:3]`, and hand back `outputs[3:]` as the
additional outputs. -/
def get_agent_reaction {L I F γ : Type} (bk : Backend L I F γ) (agent : MDPAgent L I γ)
    (last_memory_state observation : List γ) (additional_outputs : List L) (flags : F) :
    Reaction γ :=
  let outputs := get_output bk
      ([agent.memory, agent.policy, agent.resolver] ++ additional_outputs)
      (agent.input_map last_memory_state observation) flags
  { hidden := outputs.headD []
    policy := (outputs.drop 1).headD []
    action := (outputs.drop 2).headD []
    additional_outputs := outputs.drop 3 }

/-- The values a call to `get_agent_reaction` conveys, flattened in return
order: hidden, policy, action, then the additional outputs in request order. -/
def reaction_values {γ : Type} (r : Reaction γ) : List (List γ) :=
  [r.hidden, r.policy, r.action] ++ r.additional_outputs

/-- One tick's recorded outputs: the list
`[new_env_state, new_observation, hidden, policy, action] + additional_outputs`
returned by the source's `step` (lines 114-122). -/
structure StepOut (γ : Type) where
  new_env_state : List γ
  new_observation : List γ
  hidden : List γ
  policy : List γ
  action : List γ
  additional_outputs : List (List γ)

instance {γ : Type} : Inhabited (StepOut γ) where
  default := ⟨[], [], [], [], [], []⟩

variable {L I F γ : Type}

/-- The recurrent `step` function (lines 114-122): react to the carried
observation with the carried hidden state, then apply the environment
transition to the carried environment state with the picked action.  The
source's `step` ignores `last_policy`, `last_action` and the carried extra
outputs, so the effective carried state is `(env_state, observation, hidden)`. -/
def step (bk : Backend L I F γ) (agent : MDPAgent L I γ) (env : Environment γ)
    (additional_output_layers : List L) (flags : F) (time_tick : Nat)
    (env_state observation last_hidden : List γ) : StepOut γ :=
  let r := get_agent_reaction bk agent last_hidden observation additional_output_layers flags
  let res := env.get_action_results env_state r.action time_tick
  { new_env_state := res.1
    new_observation := res.2
    hidden := r.hidden
    policy := r.policy
    action := r.action
    additional_outputs := r.additional_outputs }

/-- The carried state handed from one tick of `unroll_scan` to the next:
`(env_state, observation, hidden)` after running `step` at `time_tick`. -/
def carry_step (bk : Backend L I F γ) (agent : MDPAgent L I γ) (env : Environment γ)
    (addl : List L) (flags : F) (c : List γ × List γ × List γ) (time_tick : Nat) :
    List γ × List γ × List γ :=
  let out := step bk agent env addl flags time_tick c.1 c.2.1 c.2.2
  (out.new_env_state, out.new_observation, out.hidden)

/-- `lasagne.utils.unroll_scan` specialized to the source's `step` and
`outputs_info` (lines 124-133): starting from carried state `c` at tick `t`,
run `n` consecutive ticks and record every tick's outputs, oldest first. -/
def unroll_from (bk : Backend L I F γ) (agent : MDPAgent L I γ) (env : Environment γ)
    (addl : List L) (flags : F) (c : List γ × List γ × List γ) (t : Nat) :
    Nat → List (StepOut γ)
  | 0 => []
  | n + 1 =>
    step bk agent env addl flags t c.1 c.2.1 c.2.2 ::
      unroll_from bk agent env addl flags (carry_step bk agent env addl flags c t) (t + 1) n

/-- Reference recurrence: the carried `(env_state, observation, hidden)` that
is the input of tick `t0 + i`, starting from carried state `c` at tick `t0`. -/
def carry_from (bk : Backend L I F γ) (agent : MDPAgent L I γ) (env : Environment γ)
    (addl : List L) (flags : F) (c : List γ × List γ × List γ) (t0 : Nat) :
    Nat → List γ × List γ × List γ
  | 0 => c
  | i + 1 =>
    carry_step bk agent env addl flags (carry_from bk agent env addl flags c t0 i) (t0 + i)

/-- `var.swapaxes(1, 0)` on a rectangular `[time, batch, ...]` stack: the
entry at `[b, t]` is the entry of `m` at `[t, b]`. -/
def swapaxes10 {α : Type} [Inhabited α] (m : List (List α)) : List (List α) :=
  (List.range ((m.headD []).length)).map (fun b => m.map (fun row => row.getD b default))

/-- Time-major stacked environment states: `history[0]` before `swapaxes`. -/
def state_tm {γ : Type} (outs : List (StepOut γ)) : List (List γ) :=
  outs.map (fun o => o.new_env_state)

/-- Time-major stacked observations: `history[1]` before `swapaxes`. -/
def observation_tm {γ : Type} (outs : List (StepOut γ)) : List (List γ) :=
  outs.map (fun o => o.new_observation)

/-- Time-major stacked hidden states: `history[2]` before `swapaxes`. -/
def hidden_tm {γ : Type} (outs : List (StepOut γ)) : List (List γ) :=
  outs.map (fun o => o.hidden)

/-- Time-major stacked policies: `history[3]` before `swapaxes`. -/
def policy_tm {γ : Type} (outs : List (StepOut γ)) : List (List γ) :=
  outs.map (fun o => o.policy)

/-- Time-major stacked actions: `history[4]` before `swapaxes`. -/
def action_tm {γ : Type} (outs : List (StepOut γ)) : List (List γ) :=
  outs.map (fun o => o.action)

/-- Time-major stacked additional outputs, `history[5:]` before `swapaxes`:
one `[time][batch]` stack per requested additional layer, in request order
(every tick's `additional_outputs` provably has exactly `k` entries). -/
def extras_tm {γ : Type} (k : Nat) (outs : List (StepOut γ)) : List (List (List γ)) :=
  (List.range k).map (fun j => outs.map (fun o => o.additional_outputs.getD j []))

/-- The alignment of lines 147-150:
`T.concatenate([insert_dim(initial, 1), seq[:, :-1]], axis=1)` on a
batch-major sequence: per batch row, prepend the initial value and drop the
last raw element. -/
def align_axis1 {γ : Type} (initial : List γ) (seq_bm : List (List γ)) : List (List γ) :=
  List.zipWith (fun i0 row => i0 :: row.dropLast) initial seq_bm

/-- The `'zeros'` string sentinel of the `initial_*` parameters: either the
default zero-fill request or an explicitly supplied tensor. -/
inductive Initial (γ : Type) where
  | zeros
  | explicit (v : List γ)

/-- Resolution of one `initial_*` parameter (lines 100-106):
`'zeros'` becomes `T.zeros([batch_size, k])`, which fails when `batch_size`
is `None`; an explicit tensor is used as given. -/
def resolve_initial {γ : Type} (batch_size : Option Nat) (z : γ) :
    Initial γ → Option (List γ)
  | Initial.zeros => batch_size.map (fun b => List.replicate b z)
  | Initial.explicit v => some v

/-- The tuple returned by `get_sessions` (line 153). -/
structure SessionResult (γ : Type) where
  state_seq : List (List γ)
  observation_seq : List (List γ)
  hidden_seq : List (List γ)
  policy_seq : List (List γ)
  action_seq : List (List γ)
  additional_output_sequences : List (List (List γ))

/-- The body of `get_sessions` after the three initial values resolved (lines
108-153), as a function of the resolved initial values: unroll
`session_length` ticks from tick 0, collect the time-major `history`, store it
on `self` (line 135), swap every stacked sequence to batch-major (line 137;
every recorded sequence here carries both a time and a batch axis), realign
`state_seq`/`observation_seq` (lines 147-150), and return the updated agent
object together with the result tuple of line 153. -/
def sessions_of [Inhabited γ] (bk : Backend L I F γ) (agent : MDPAgent L I γ)
    (env : Environment γ) (n : Nat) (addl : List L) (flags : F) (s0 o0 h0 : List γ) :
    MDPAgent L I γ × SessionResult γ :=
  let outs := unroll_from bk agent env addl flags (s0, o0, h0) 0 n
  let history := [state_tm outs, observation_tm outs, hidden_tm outs,
      policy_tm outs, action_tm outs] ++ extras_tm addl.length outs
  ({ agent with history := some history },
    { state_seq := align_axis1 s0 (swapaxes10 (state_tm outs))
      observation_seq := align_axis1 o0 (swapaxes10 (observation_tm outs))
      hidden_seq := swapaxes10 (hidden_tm outs)
      policy_seq := swapaxes10 (policy_tm outs)
      action_seq := swapaxes10 (action_tm outs)
      additional_output_sequences := (extras_tm addl.length outs).map swapaxes10 })

/-- `get_sessions` (lines 67-153): resolve the three initial values (failing
like theano does when a zero-fill needs an absent `batch_size`), then run the
unroll-and-align body `sessions_of`.  The updated agent object is returned
alongside the result tuple to make the mutation of `self.history` explicit. -/
def get_sessions [Inhabited γ] (bk : Backend L I F γ) (agent : MDPAgent L I γ)
    (environment : Environment γ) (session_length : Nat) (batch_size : Option Nat)
    (initial_env_state initial_observation initial_hidden : Initial γ)
    (additional_output_layers : List L) (flags : F) :
    Option (MDPAgent L I γ × SessionResult γ) :=
  match resolve_initial batch_size (bk.zrow environment.state_size) initial_env_state,
      resolve_initial batch_size (bk.zrow environment.observation_size) initial_observation,
      resolve_initial batch_size (bk.zrow (bk.output_shape agent.memory)) initial_hidden with
  | some s0, some o0, some h0 =>
    some (sessions_of bk agent environment session_length additional_output_layers flags
      s0 o0 h0)
  | _, _, _ => none

/-! Model of the axis-layout conversion line
`history = [(var.swapaxes(1,0) if var.ndim > 1 else var) for var in history]`
(line 137) over variables of arbitrary rank: a variable either has rank 0 or
rank 1 (no two outer axes to exchange), or rank at least 2, in which case its
two outermost axes are explicit and the deeper structure stays opaque. -/

inductive TVar (γ : Type) where
  | r0 (x : γ)
  | r1 (xs : List γ)
  | rN (m : List (List (TVar γ)))

instance {γ : Type} [Inhabited γ] : Inhabited (TVar γ) where
  default := TVar.r0 default

/-- `var.ndim`, as far as line 137 needs it: `rN` stands for every variable of
rank at least 2 and reports the rank of its two explicit axes. -/
def TVar.ndim {γ : Type} : TVar γ → Nat
  | TVar.r0 _ => 0
  | TVar.r1 _ => 1
  | TVar.rN _ => 2

/-- `var.swapaxes(1, 0)`: exchange the two outermost axes.  Line 137 only ever
applies it to variables with `ndim > 1`. -/
def TVar.swap {γ : Type} [Inhabited γ] : TVar γ → TVar γ
  | TVar.rN m => TVar.rN (swapaxes10 m)
  | v => v

/-- One element of the comprehension on line 137: transpose when `ndim > 1`,
otherwise keep the variable untouched. -/
def to_batch_major {γ : Type} [Inhabited γ] (var : TVar γ) : TVar γ :=
  if var.ndim > 1 then var.swap else var

/-- The comprehension on line 137 itself. -/
def axes_to_batch_major {γ : Type} [Inhabited γ] (history : List (TVar γ)) :
    List (TVar γ) :=
  history.map (fun var => to_batch_major var)

/-- Entry of a rank-`≥ 2` variable at outer indices `(a, b)`. -/
def TVar.entry2 {γ : Type} [Inhabited γ] : TVar γ → Nat → Nat → TVar γ
  | TVar.rN m, a, b => (m.getD a []).getD b default
  | v, _, _ => v

/-! Concrete instantiation used to exercise the model: cells are natural
numbers (`γ = Nat`), layers are numbered handles (`L = Nat`: 0 backs the
memory, 1 the policy, every other id resolves to the action), the input
mapping pairs its two arguments, and flags carry no information.  Each batch
row's observation has a single feature, so "the observation's first element"
is the row's value: the resolver copies the previous observation.  The
environment keeps a per-row counter, emits it as the observation and then
increments it, so the raw recorded observation at tick `t` is `t` in every
batch row. -/

def cbBackend : Backend Nat (List Nat × List Nat) Unit Nat where
  evalL := fun l inp _ => if l = 0 then inp.1 else inp.2
  zrow := fun _ => 0
  output_shape := fun _ => 1

def cbAgent : MDPAgent Nat (List Nat × List Nat) Nat where
  memory := 0
  policy := 1
  resolver := 2
  input_map := fun h o => (h, o)
  history := none

def counterEnv : Environment Nat where
  state_size := 1
  observation_size := 1
  get_action_results := fun s _ _ => (s.map (fun x => x + 1), s)

/-- Forget a tick's additional outputs, keeping the five core recorded
values; used to state that requesting extra outputs leaves the core of the
unroll unchanged. -/
def core_of {γ : Type} (o : StepOut γ) : StepOut γ :=
  { o with additional_outputs := [] }

/-! Generic list-indexing helper lemmas (stated with `List.getD`). -/

theorem getD_map {α β : Type} (f : α → β) (l : List α) (i : Nat) (h : i < l.length)
    (d : α) (d' : β) : (l.map f).getD i d' = f (l.getD i d) := by
  rw [List.getD_eq_getElem _ _ (by simpa using h), List.getD_eq_getElem _ _ h,
    List.getElem_map]

theorem getD_zipWith {α β δ : Type} (f : α → β → δ) (l₁ : List α) (l₂ : List β) (i : Nat)
    (h₁ : i < l₁.length) (h₂ : i < l₂.length) (d₁ : α) (d₂ : β) (d : δ) :
    (List.zipWith f l₁ l₂).getD i d = f (l₁.getD i d₁) (l₂.getD i d₂) := by
  rw [List.getD_eq_getElem _ _ (by rw [List.length_zipWith]; exact lt_min h₁ h₂),
    List.getD_eq_getElem _ _ h₁, List.getD_eq_getElem _ _ h₂, List.getElem_zipWith]

theorem getD_dropLast {α : Type} (l : List α) (i : Nat) (h : i + 1 < l.length) (d : α) :
    l.dropLast.getD i d = l.getD i d := by
  have hi : i < l.dropLast.length := by rw [List.length_dropLast]; omega
  rw [List.getD_eq_getElem _ _ hi, List.getD_eq_getElem _ _ (by omega),
    List.getElem_dropLast]

theorem getD_range (k i : Nat) (h : i < k) (d : Nat) : (List.range k).getD i d = i := by
  rw [List.getD_eq_getElem _ _ (by simpa using h), List.getElem_range]

theorem getD_mem {α : Type} (l : List α) (i : Nat) (h : i < l.length) (d : α) :
    l.getD i d ∈ l := by
  rw [List.getD_eq_getElem _ _ h]
  exact List.getElem_mem h

theorem headD_map_length {α δ : Type} (f : α → List δ) (l : List α) (B : Nat)
    (hl : l ≠ []) (h : ∀ x ∈ l, (f x).length = B) : ((l.map f).headD []).length = B := by
  cases l with
  | nil => exact absurd rfl hl
  | cons x xs => simpa using h x (List.mem_cons_self x xs)

/-! Facts about the unroll recurrence. -/

theorem unroll_from_length (bk : Backend L I F γ) (agent : MDPAgent L I γ)
    (env : Environment γ) (addl : List L) (flags : F) :
    ∀ (n : Nat) (c : List γ × List γ × List γ) (t : Nat),
      (unroll_from bk agent env addl flags c t n).length = n
  | 0, _, _ => rfl
  | n + 1, c, t => by
    simp only [unroll_from, List.length_cons,
      unroll_from_length bk agent env addl flags n]

theorem carry_from_shift (bk : Backend L I F γ) (agent : MDPAgent L I γ)
    (env : Environment γ) (addl : List L) (flags : F) :
    ∀ (i : Nat) (c : List γ × List γ × List γ) (t0 : Nat),
      carry_from bk agent env addl flags c t0 (i + 1) =
        carry_from bk agent env addl flags (carry_step bk agent env addl flags c t0)
          (t0 + 1) i
  | 0, c, t0 => by simp [carry_from]
  | i + 1, c, t0 => by
    have ih := carry_from_shift bk agent env addl flags i c t0
    simp only [carry_from] at ih ⊢
    rw [ih]
    congr 1
    omega

theorem unroll_from_getD (bk : Backend L I F γ) (agent : MDPAgent L I γ)
    (env : Environment γ) (addl : List L) (flags : F) :
    ∀ (n i : Nat) (c : List γ × List γ × List γ) (t0 : Nat), i < n →
      (unroll_from bk agent env addl flags c t0 n).getD i default =
        step bk agent env addl flags (t0 + i)
          (carry_from bk agent env addl flags c t0 i).1
          (carry_from bk agent env addl flags c t0 i).2.1
          (carry_from bk agent env addl flags c t0 i).2.2
  | 0, i, _, _ => fun h => absurd h (Nat.not_lt_zero i)
  | n + 1, 0, c, t0 => by
    intro _
    simp [unroll_from, carry_from]
  | n + 1, i + 1, c, t0 => by
    intro h
    have ih := unroll_from_getD bk agent env addl flags n i
      (carry_step bk agent env addl flags c t0) (t0 + 1) (Nat.lt_of_succ_lt_succ h)
    simp only [unroll_from, List.getD_cons_succ]
    rw [ih, carry_from_shift bk agent env addl flags i c t0]
    have ht : t0 + 1 + i = t0 + (i + 1) := by omega
    rw [ht]

/-! Facts about `swapaxes10`. -/

theorem swapaxes10_length {α : Type} [Inhabited α] (m : List (List α)) :
    (swapaxes10 m).length = (m.headD []).length := by
  simp [swapaxes10]

theorem swapaxes10_getD {α : Type} [Inhabited α] (m : List (List α)) (b : Nat)
    (hb : b < (m.headD []).length) :
    (swapaxes10 m).getD b [] = m.map (fun row => row.getD b default) := by
  show ((List.range ((m.headD []).length)).map
      (fun b => m.map (fun row => row.getD b default))).getD b [] = _
  rw [List.getD_eq_getElem _ _ (by simpa using hb), List.getElem_map, List.getElem_range]

theorem swapaxes10_row_length {α : Type} [Inhabited α] (m : List (List α)) (b : Nat)
    (hb : b < (m.headD []).length) : ((swapaxes10 m).getD b []).length = m.length := by
  rw [swapaxes10_getD m b hb, List.length_map]

theorem swapaxes10_getD_getD {α : Type} [Inhabited α] (m : List (List α)) (b t : Nat)
    (hb : b < (m.headD []).length) (ht : t < m.length) :
    ((swapaxes10 m).getD b []).getD t default = (m.getD t []).getD b default := by
  rw [swapaxes10_getD m b hb, getD_map (fun row => row.getD b default) m t ht []]

/-! Destructuring `get_sessions` once the three initial values resolve. -/

theorem get_sessions_eq [Inhabited γ] (bk : Backend L I F γ) (agent : MDPAgent L I γ)
    (env : Environment γ) (n : Nat) (bs : Option Nat)
    (is io ih : Initial γ) (addl : List L) (flags : F) (s0 o0 h0 : List γ)
    (hs : resolve_initial bs (bk.zrow env.state_size) is = some s0)
    (ho : resolve_initial bs (bk.zrow env.observation_size) io = some o0)
    (hh : resolve_initial bs (bk.zrow (bk.output_shape agent.memory)) ih = some h0) :
    get_sessions bk agent env n bs is io ih addl flags =
      some (sessions_of bk agent env n addl flags s0 o0 h0) := by
  unfold get_sessions
  rw [hs, ho, hh]

/-! Access lemmas for the batch-major and realigned sequences. -/

theorem swap_tm_getD {γ : Type} [Inhabited γ] (outs : List (StepOut γ))
    (f : StepOut γ → List γ) (B b t : Nat) (hne : outs ≠ [])
    (hrect : ∀ o ∈ outs, (f o).length = B) (hb : b < B) (ht : t < outs.length) :
    ((swapaxes10 (outs.map f)).getD b []).getD t default =
      (f (outs.getD t default)).getD b default := by
  have hhead : ((outs.map f).headD []).length = B := headD_map_length f outs B hne hrect
  rw [swapaxes10_getD_getD (outs.map f) b t (by rw [hhead]; exact hb) (by simpa using ht),
    getD_map f outs t ht default []]

theorem swap_tm_row_length {γ : Type} [Inhabited γ] (outs : List (StepOut γ))
    (f : StepOut γ → List γ) (B b : Nat) (hne : outs ≠ [])
    (hrect : ∀ o ∈ outs, (f o).length = B) (hb : b < B) :
    ((swapaxes10 (outs.map f)).getD b []).length = outs.length := by
  have hhead : ((outs.map f).headD []).length = B := headD_map_length f outs B hne hrect
  rw [swapaxes10_row_length _ b (by rw [hhead]; exact hb), List.length_map]

theorem swap_tm_length {γ : Type} [Inhabited γ] (outs : List (StepOut γ))
    (f : StepOut γ → List γ) (B : Nat) (hne : outs ≠ [])
    (hrect : ∀ o ∈ outs, (f o).length = B) :
    (swapaxes10 (outs.map f)).length = B := by
  rw [swapaxes10_length]
  exact headD_map_length f outs B hne hrect

theorem align_row_getD {γ : Type} [Inhabited γ] (init : List γ) (outs : List (StepOut γ))
    (f : StepOut γ → List γ) (B b : Nat) (hne : outs ≠ [])
    (hrect : ∀ o ∈ outs, (f o).length = B) (hb : b < B) (hinit : init.length = B) :
    (align_axis1 init (swapaxes10 (outs.map f))).getD b [] =
      init.getD b default :: ((swapaxes10 (outs.map f)).getD b []).dropLast := by
  have hswap : (swapaxes10 (outs.map f)).length = B := swap_tm_length outs f B hne hrect
  exact getD_zipWith (fun i0 row => i0 :: row.dropLast) init (swapaxes10 (outs.map f)) b
    (by omega) (by omega) default [] []

theorem align_row_getD_zero {γ : Type} [Inhabited γ] (init : List γ)
    (outs : List (StepOut γ)) (f : StepOut γ → List γ) (B b : Nat) (hne : outs ≠ [])
    (hrect : ∀ o ∈ outs, (f o).length = B) (hb : b < B) (hinit : init.length = B) :
    ((align_axis1 init (swapaxes10 (outs.map f))).getD b []).getD 0 default =
      init.getD b default := by
  rw [align_row_getD init outs f B b hne hrect hb hinit, List.getD_cons_zero]

theorem align_row_getD_succ {γ : Type} [Inhabited γ] (init : List γ)
    (outs : List (StepOut γ)) (f : StepOut γ → List γ) (B b j : Nat) (hne : outs ≠ [])
    (hrect : ∀ o ∈ outs, (f o).length = B) (hb : b < B) (hinit : init.length = B)
    (hj : j + 1 < outs.length) :
    ((align_axis1 init (swapaxes10 (outs.map f))).getD b []).getD (j + 1) default =
      (f (outs.getD j default)).getD b default := by
  rw [align_row_getD init outs f B b hne hrect hb hinit, List.getD_cons_succ,
    getD_dropLast _ j (by rw [swap_tm_row_length outs f B b hne hrect hb]; exact hj) default,
    swap_tm_getD outs f B b j hne hrect hb (by omega)]

theorem align_row_length {γ : Type} [Inhabited γ] (init : List γ)
    (outs : List (StepOut γ)) (f : StepOut γ → List γ) (B b : Nat) (hne : outs ≠ [])
    (hrect : ∀ o ∈ outs, (f o).length = B) (hb : b < B) (hinit : init.length = B) :
    ((align_axis1 init (swapaxes10 (outs.map f))).getD b []).length = outs.length := by
  rw [align_row_getD init outs f B b hne hrect hb hinit]
  have hrow : ((swapaxes10 (outs.map f)).getD b []).length = outs.length :=
    swap_tm_row_length outs f B b hne hrect hb
  have hpos : 0 < outs.length := List.length_pos.mpr hne
  rw [List.length_cons, List.length_dropLast, hrow]
  omega

theorem swapaxes10_mem_length {α : Type} [Inhabited α] (m : List (List α))
    (row : List α) (hrow : row ∈ swapaxes10 m) : row.length = m.length := by
  unfold swapaxes10 at hrow
  rcases List.mem_map.mp hrow with ⟨b, _, hbrow⟩
  rw [← hbrow, List.length_map]

/-! Claim theorems. -/

/-- C3: with `session_length = 5`, `batch_size = 2`, zero initial values, an
agent whose action copies the previous observation's first element, and an
environment whose observation is a counter incremented by 1 per tick starting
at 0, `get_sessions` returns `observation_seq = [0, 0, 1, 2, 3]` in each of
the two batch rows after alignment. -/
theorem C3_determinism_scenario :
    (get_sessions cbBackend cbAgent counterEnv 5 (some 2) Initial.zeros Initial.zeros
        Initial.zeros [] ()).map (fun p => p.2.observation_seq) =
      some [[0, 0, 1, 2, 3], [0, 0, 1, 2, 3]] := by
  rfl

/-- C5 counterexample: calling `get_sessions` with an explicit
`initial_hidden` of batch extent 2 and `batch_size` left at its `None` default
does not complete: the zero-fill of `initial_env_state` and
`initial_observation` still needs `batch_size`, so the call fails instead of
resolving the batch extent to 2. -/
theorem C5_counterexample :
    get_sessions cbBackend cbAgent counterEnv 5 none Initial.zeros Initial.zeros
      (Initial.explicit [0, 0]) [] () = none := by
  rfl

/-- C5 amended: with `batch_size` omitted (`None`), `get_sessions` completes
without error exactly when all three initial values are explicit (in which
case `batch_size` is never consulted and the batch extent is the one the
supplied tensors carry); a batch extent is never inferred from an explicit
`initial_hidden` alone, and any initial value left at `'zeros'` makes the call
fail for lack of a batch size. -/
theorem C5_batch_size_resolution [Inhabited γ] (bk : Backend L I F γ)
    (agent : MDPAgent L I γ) (env : Environment γ) (n : Nat) (is io ih : Initial γ)
    (addl : List L) (flags : F) :
    (get_sessions bk agent env n none is io ih addl flags).isSome ↔
      (∃ v, is = Initial.explicit v) ∧ (∃ v, io = Initial.explicit v) ∧
        ∃ v, ih = Initial.explicit v := by
  cases is <;> cases io <;> cases ih <;>
    simp [get_sessions, resolve_initial]

/-- C6 counterexample: `get_sessions` does mutate the agent object: before a
call the concrete agent's `history` attribute is `none`, and the call returns
the agent with `history` set, so the attribute after the call differs from the
attribute before it. -/
theorem C6_counterexample :
    (get_sessions cbBackend cbAgent counterEnv 1 (some 1) Initial.zeros Initial.zeros
        Initial.zeros [] ()).map (fun p => p.1.history) ≠ some cbAgent.history := by
  decide

/-- C6 amended: `get_sessions` mutates exactly one attribute of the agent: it
stores the raw time-major unroll history in `self.history` (line 135), leaving
`memory`, `policy`, `resolver` and `input_map` unchanged; separate invocations
on the same agent therefore share this mutable attribute rather than being
stateless. -/
theorem C6_history_attribute [Inhabited γ] (bk : Backend L I F γ)
    (agent : MDPAgent L I γ) (env : Environment γ) (n : Nat) (bs : Option Nat)
    (is io ih : Initial γ) (addl : List L) (flags : F) (s0 o0 h0 : List γ)
    (hs : resolve_initial bs (bk.zrow env.state_size) is = some s0)
    (ho : resolve_initial bs (bk.zrow env.observation_size) io = some o0)
    (hh : resolve_initial bs (bk.zrow (bk.output_shape agent.memory)) ih = some h0) :
    (get_sessions bk agent env n bs is io ih addl flags).map (fun p => p.1) =
      some { agent with
        history := some
            ([state_tm (unroll_from bk agent env addl flags (s0, o0, h0) 0 n),
              observation_tm (unroll_from bk agent env addl flags (s0, o0, h0) 0 n),
              hidden_tm (unroll_from bk agent env addl flags (s0, o0, h0) 0 n),
              policy_tm (unroll_from bk agent env addl flags (s0, o0, h0) 0 n),
              action_tm (unroll_from bk agent env addl flags (s0, o0, h0) 0 n)] ++
              extras_tm addl.length
                (unroll_from bk agent env addl flags (s0, o0, h0) 0 n)) } := by
  rw [get_sessions_eq bk agent env n bs is io ih addl flags s0 o0 h0 hs ho hh]
  rfl

/-- C6 witness: the amended statement at the concrete scenario. -/
theorem C6_history_attribute_witness :
    (get_sessions cbBackend cbAgent counterEnv 1 (some 1) Initial.zeros Initial.zeros
        Initial.zeros [] ()).map (fun p => p.1) =
      some { cbAgent with
        history := some
            ([state_tm (unroll_from cbBackend cbAgent counterEnv [] () ([0], [0], [0]) 0 1),
              observation_tm
                (unroll_from cbBackend cbAgent counterEnv [] () ([0], [0], [0]) 0 1),
              hidden_tm (unroll_from cbBackend cbAgent counterEnv [] () ([0], [0], [0]) 0 1),
              policy_tm (unroll_from cbBackend cbAgent counterEnv [] () ([0], [0], [0]) 0 1),
              action_tm
                (unroll_from cbBackend cbAgent counterEnv [] () ([0], [0], [0]) 0 1)] ++
              extras_tm ([] : List Nat).length
                (unroll_from cbBackend cbAgent counterEnv [] () ([0], [0], [0]) 0 1)) } :=
  C6_history_attribute cbBackend cbAgent counterEnv 1 (some 1) Initial.zeros Initial.zeros
    Initial.zeros [] () [0] [0] [0] rfl rfl rfl

/-- C7: `get_agent_reaction` conveys exactly `3 + len(additional_outputs)`
values, in the order hidden, policy, action, then the extra outputs in request
order (the evaluation of `[memory, policy, resolver] + additional_outputs`),
and when every requested layer evaluates to batch extent `B` on these inputs,
every returned value is batch-aligned at extent `B`. -/
theorem C7_reaction_arity_order (bk : Backend L I F γ) (agent : MDPAgent L I γ)
    (last_memory_state observation : List γ) (additional_outputs : List L) (flags : F)
    (B : Nat)
    (hB : ∀ l,
      (bk.evalL l (agent.input_map last_memory_state observation) flags).length = B) :
    reaction_values
        (get_agent_reaction bk agent last_memory_state observation additional_outputs
          flags) =
      get_output bk ([agent.memory, agent.policy, agent.resolver] ++ additional_outputs)
        (agent.input_map last_memory_state observation) flags ∧
    (reaction_values
        (get_agent_reaction bk agent last_memory_state observation additional_outputs
          flags)).length = 3 + additional_outputs.length ∧
    (get_agent_reaction bk agent last_memory_state observation additional_outputs
        flags).additional_outputs =
      additional_outputs.map
        (fun l => bk.evalL l (agent.input_map last_memory_state observation) flags) ∧
    ∀ v ∈ reaction_values
        (get_agent_reaction bk agent last_memory_state observation additional_outputs
          flags), v.length = B := by
  refine ⟨rfl, ?_, rfl, ?_⟩
  · show (get_output bk
        ([agent.memory, agent.policy, agent.resolver] ++ additional_outputs)
        (agent.input_map last_memory_state observation) flags).length = _
    simp [get_output]
    omega
  · intro v hv
    have hflat : reaction_values
        (get_agent_reaction bk agent last_memory_state observation additional_outputs
          flags) =
        ([agent.memory, agent.policy, agent.resolver] ++ additional_outputs).map
          (fun l => bk.evalL l (agent.input_map last_memory_state observation) flags) :=
      rfl
    rw [hflat] at hv
    rcases List.mem_map.mp hv with ⟨l, _, hl⟩
    rw [← hl]
    exact hB l

/-- C7 witness: the reaction arity statement at a concrete input. -/
theorem C7_reaction_arity_order_witness :
    (∀ l, (cbBackend.evalL l (cbAgent.input_map [0, 0] [5, 7]) ()).length = 2) ∧
    (reaction_values (get_agent_reaction cbBackend cbAgent [0, 0] [5, 7] [3, 4] ())).length
      = 3 + ([3, 4] : List Nat).length :=
  ⟨fun l => by by_cases h : l = 0 <;> simp [cbBackend, cbAgent, h],
    (C7_reaction_arity_order cbBackend cbAgent [0, 0] [5, 7] [3, 4] () 2
      (fun l => by by_cases h : l = 0 <;> simp [cbBackend, cbAgent, h])).2.1⟩

/-- C8: the axis-layout conversion of line 137 maps each unrolled output
through `to_batch_major`: an output of rank at most 1 is returned untouched,
with no transposition, while an output of rank greater than 1 (a rectangular
`[time, batch, ...]` stack) is transposed to batch-major: the entry of the
result at `[b, t]` is the entry of the input at `[t, b]`. -/
theorem C8_axis_layout {δ : Type} [Inhabited δ] (history : List (TVar δ)) :
    axes_to_batch_major history = history.map to_batch_major ∧
    (∀ var : TVar δ, TVar.ndim var ≤ 1 → to_batch_major var = var) ∧
    ∀ (m : List (List (TVar δ))) (B t b : Nat), 0 < m.length →
      (∀ row ∈ m, row.length = B) → b < B → t < m.length →
      1 < TVar.ndim (TVar.rN m) ∧
        TVar.entry2 (to_batch_major (TVar.rN m)) b t = TVar.entry2 (TVar.rN m) t b := by
  refine ⟨rfl, ?_, ?_⟩
  · intro var h
    cases var with
    | r0 x => rfl
    | r1 xs => rfl
    | rN m => simp [TVar.ndim] at h
  · intro m B t b hm hrow hb ht
    refine ⟨by simp [TVar.ndim], ?_⟩
    have hswap : to_batch_major (TVar.rN m) = TVar.rN (swapaxes10 m) := rfl
    rw [hswap]
    show ((swapaxes10 m).getD b []).getD t default = (m.getD t []).getD b default
    have hhead : (m.headD []).length = B := by
      cases m with
      | nil => simp at hm
      | cons row rest => exact hrow row (List.mem_cons_self row rest)
    exact swapaxes10_getD_getD m b t (by rw [hhead]; exact hb) ht

/-- C8 witness: the transposition clause at a concrete rank-2 variable. -/
theorem C8_axis_layout_witness :
    TVar.entry2
        (to_batch_major (TVar.rN [[TVar.r0 1, TVar.r0 2], [TVar.r0 3, TVar.r0 4]])) 0 1 =
      TVar.entry2 (TVar.rN [[TVar.r0 (1 : Nat), TVar.r0 2], [TVar.r0 3, TVar.r0 4]]) 1 0 :=
  ((C8_axis_layout ([] : List (TVar Nat))).2.2
    [[TVar.r0 1, TVar.r0 2], [TVar.r0 3, TVar.r0 4]] 2 1 0 (by decide)
    (by decide) (by decide) (by decide)).2

/-- C1: time-synchronization post-condition of `get_sessions`: at every
aligned index `i` and batch row `b`, `state_seq[i]` and `observation_seq[i]`
are the carried environment state and observation that were the inputs of
tick `i` — exactly the observation the agent observed — while `hidden_seq[i]`,
`policy_seq[i]` and `action_seq[i]` are the outputs of the agent reaction
computed from that carried observation and the carried hidden state. -/
theorem C1_time_synchronization [Inhabited γ] (bk : Backend L I F γ)
    (agent : MDPAgent L I γ) (env : Environment γ) (n : Nat) (bs : Option Nat)
    (is io ih : Initial γ) (addl : List L) (flags : F) (s0 o0 h0 : List γ)
    (hs : resolve_initial bs (bk.zrow env.state_size) is = some s0)
    (ho : resolve_initial bs (bk.zrow env.observation_size) io = some o0)
    (hh : resolve_initial bs (bk.zrow (bk.output_shape agent.memory)) ih = some h0)
    (a : MDPAgent L I γ) (r : SessionResult γ)
    (hr : get_sessions bk agent env n bs is io ih addl flags = some (a, r))
    (B b i : Nat) (hB0 : s0.length = B) (hB1 : o0.length = B)
    (hrect : ∀ o ∈ unroll_from bk agent env addl flags (s0, o0, h0) 0 n,
      o.new_env_state.length = B ∧ o.new_observation.length = B ∧
        o.hidden.length = B ∧ o.policy.length = B ∧ o.action.length = B)
    (hb : b < B) (hi : i < n) :
    (r.state_seq.getD b []).getD i default =
        (carry_from bk agent env addl flags (s0, o0, h0) 0 i).1.getD b default ∧
      (r.observation_seq.getD b []).getD i default =
        (carry_from bk agent env addl flags (s0, o0, h0) 0 i).2.1.getD b default ∧
      (r.hidden_seq.getD b []).getD i default =
        (get_agent_reaction bk agent
            (carry_from bk agent env addl flags (s0, o0, h0) 0 i).2.2
            (carry_from bk agent env addl flags (s0, o0, h0) 0 i).2.1 addl
            flags).hidden.getD b default ∧
      (r.policy_seq.getD b []).getD i default =
        (get_agent_reaction bk agent
            (carry_from bk agent env addl flags (s0, o0, h0) 0 i).2.2
            (carry_from bk agent env addl flags (s0, o0, h0) 0 i).2.1 addl
            flags).policy.getD b default ∧
      (r.action_seq.getD b []).getD i default =
        (get_agent_reaction bk agent
            (carry_from bk agent env addl flags (s0, o0, h0) 0 i).2.2
            (carry_from bk agent env addl flags (s0, o0, h0) 0 i).2.1 addl
            flags).action.getD b default := by
  have hsr : sessions_of bk agent env n addl flags s0 o0 h0 = (a, r) :=
    Option.some.inj
      ((get_sessions_eq bk agent env n bs is io ih addl flags s0 o0 h0 hs ho hh).symm.trans
        hr)
  have hrr : r = (sessions_of bk agent env n addl flags s0 o0 h0).2 := by rw [hsr]
  have houtlen : (unroll_from bk agent env addl flags (s0, o0, h0) 0 n).length = n :=
    unroll_from_length bk agent env addl flags n (s0, o0, h0) 0
  have hne : unroll_from bk agent env addl flags (s0, o0, h0) 0 n ≠ [] := by
    apply List.ne_nil_of_length_pos
    rw [houtlen]
    omega
  have hstate : r.state_seq = align_axis1 s0 (swapaxes10
      ((unroll_from bk agent env addl flags (s0, o0, h0) 0 n).map
        (fun o => o.new_env_state))) := by
    rw [hrr]
    rfl
  have hobs : r.observation_seq = align_axis1 o0 (swapaxes10
      ((unroll_from bk agent env addl flags (s0, o0, h0) 0 n).map
        (fun o => o.new_observation))) := by
    rw [hrr]
    rfl
  have hhid : r.hidden_seq = swapaxes10
      ((unroll_from bk agent env addl flags (s0, o0, h0) 0 n).map (fun o => o.hidden)) := by
    rw [hrr]
    rfl
  have hpol : r.policy_seq = swapaxes10
      ((unroll_from bk agent env addl flags (s0, o0, h0) 0 n).map (fun o => o.policy)) := by
    rw [hrr]
    rfl
  have hact : r.action_seq = swapaxes10
      ((unroll_from bk agent env addl flags (s0, o0, h0) 0 n).map (fun o => o.action)) := by
    rw [hrr]
    rfl
  refine ⟨?_, ?_, ?_, ?_, ?_⟩
  · rw [hstate]
    cases i with
    | zero =>
      rw [align_row_getD_zero s0 (unroll_from bk agent env addl flags (s0, o0, h0) 0 n)
        (fun o => o.new_env_state) B b hne (fun o hoo => (hrect o hoo).1) hb hB0]
      rfl
    | succ j =>
      rw [align_row_getD_succ s0 (unroll_from bk agent env addl flags (s0, o0, h0) 0 n)
        (fun o => o.new_env_state) B b j hne (fun o hoo => (hrect o hoo).1) hb hB0
        (by rw [houtlen]; exact hi)]
      rw [unroll_from_getD bk agent env addl flags n j (s0, o0, h0) 0 (by omega)]
      rfl
  · rw [hobs]
    cases i with
    | zero =>
      rw [align_row_getD_zero o0 (unroll_from bk agent env addl flags (s0, o0, h0) 0 n)
        (fun o => o.new_observation) B b hne (fun o hoo => (hrect o hoo).2.1) hb hB1]
      rfl
    | succ j =>
      rw [align_row_getD_succ o0 (unroll_from bk agent env addl flags (s0, o0, h0) 0 n)
        (fun o => o.new_observation) B b j hne (fun o hoo => (hrect o hoo).2.1) hb hB1
        (by rw [houtlen]; exact hi)]
      rw [unroll_from_getD bk agent env addl flags n j (s0, o0, h0) 0 (by omega)]
      rfl
  · rw [hhid, swap_tm_getD (unroll_from bk agent env addl flags (s0, o0, h0) 0 n)
      (fun o => o.hidden) B b i hne (fun o hoo => (hrect o hoo).2.2.1) hb
      (by rw [houtlen]; exact hi),
      unroll_from_getD bk agent env addl flags n i (s0, o0, h0) 0 hi]
    rfl
  · rw [hpol, swap_tm_getD (unroll_from bk agent env addl flags (s0, o0, h0) 0 n)
      (fun o => o.policy) B b i hne (fun o hoo => (hrect o hoo).2.2.2.1) hb
      (by rw [houtlen]; exact hi),
      unroll_from_getD bk agent env addl flags n i (s0, o0, h0) 0 hi]
    rfl
  · rw [hact, swap_tm_getD (unroll_from bk agent env addl flags (s0, o0, h0) 0 n)
      (fun o => o.action) B b i hne (fun o hoo => (hrect o hoo).2.2.2.2) hb
      (by rw [houtlen]; exact hi),
      unroll_from_getD bk agent env addl flags n i (s0, o0, h0) 0 hi]
    rfl

/-- Every member of an aligned sequence is an initial value consed onto a
batch-major row with its last element dropped. -/
theorem align_axis1_mem {γ : Type} [Inhabited γ] (init : List γ) (seq : List (List γ))
    (row : List γ) (hrow : row ∈ align_axis1 init seq) :
    ∃ i0 sr, sr ∈ seq ∧ row = i0 :: sr.dropLast := by
  unfold align_axis1 at hrow
  rcases List.mem_iff_getElem.mp hrow with ⟨i, h, heq⟩
  have hlen : i < init.length ⊓ seq.length := by
    rw [← List.length_zipWith (fun i0 row => i0 :: row.dropLast)]
    exact h
  have hi1 : i < init.length := lt_of_lt_of_le hlen (min_le_left _ _)
  have hi2 : i < seq.length := lt_of_lt_of_le hlen (min_le_right _ _)
  refine ⟨init.getD i default, seq.getD i [], getD_mem seq i hi2 [], ?_⟩
  rw [← heq, List.getElem_zipWith, List.getD_eq_getElem init default hi1,
    List.getD_eq_getElem seq [] hi2]

/-- Requesting additional output layers does not change the five core recorded
values of any tick of the unroll (the agent's core reaction and the
environment transition do not depend on the extra layers requested). -/
theorem unroll_strip_eq (bk : Backend L I F γ) (agent : MDPAgent L I γ)
    (env : Environment γ) (addl : List L) (flags : F) :
    ∀ (n : Nat) (c : List γ × List γ × List γ) (t : Nat),
      (unroll_from bk agent env addl flags c t n).map core_of =
        (unroll_from bk agent env [] flags c t n).map core_of
  | 0, _, _ => rfl
  | n + 1, c, t => by
    have ih := unroll_strip_eq bk agent env addl flags n
      (carry_step bk agent env addl flags c t) (t + 1)
    show core_of (step bk agent env addl flags t c.1 c.2.1 c.2.2) ::
        (unroll_from bk agent env addl flags
          (carry_step bk agent env addl flags c t) (t + 1) n).map core_of =
      core_of (step bk agent env [] flags t c.1 c.2.1 c.2.2) ::
        (unroll_from bk agent env [] flags
          (carry_step bk agent env [] flags c t) (t + 1) n).map core_of
    rw [ih]
    rfl

/-- C2: realignment algorithm of `get_sessions`: per batch row, the returned
`state_seq` and `observation_seq` have the initial environment state and
initial observation at position 0 and the raw recorded element of tick `j` at
position `j + 1` for `j + 1 < session_length` (so the raw element of the last
tick is dropped), both rows keeping length `session_length`, while
`hidden_seq`, `policy_seq` and `action_seq` carry the raw unroll outputs
unshifted. -/
theorem C2_realignment [Inhabited γ] (bk : Backend L I F γ) (agent : MDPAgent L I γ)
    (env : Environment γ) (n : Nat) (bs : Option Nat) (is io ih : Initial γ)
    (addl : List L) (flags : F) (s0 o0 h0 : List γ)
    (hs : resolve_initial bs (bk.zrow env.state_size) is = some s0)
    (ho : resolve_initial bs (bk.zrow env.observation_size) io = some o0)
    (hh : resolve_initial bs (bk.zrow (bk.output_shape agent.memory)) ih = some h0)
    (a : MDPAgent L I γ) (r : SessionResult γ)
    (hr : get_sessions bk agent env n bs is io ih addl flags = some (a, r))
    (B b : Nat) (hB0 : s0.length = B) (hB1 : o0.length = B)
    (hrect : ∀ o ∈ unroll_from bk agent env addl flags (s0, o0, h0) 0 n,
      o.new_env_state.length = B ∧ o.new_observation.length = B ∧
        o.hidden.length = B ∧ o.policy.length = B ∧ o.action.length = B)
    (hb : b < B) (hn : 0 < n) :
    (r.state_seq.getD b []).length = n ∧
      (r.observation_seq.getD b []).length = n ∧
      (r.state_seq.getD b []).getD 0 default = s0.getD b default ∧
      (r.observation_seq.getD b []).getD 0 default = o0.getD b default ∧
      (∀ j, j + 1 < n →
        (r.state_seq.getD b []).getD (j + 1) default =
          ((unroll_from bk agent env addl flags (s0, o0, h0) 0 n).getD j
              default).new_env_state.getD b default) ∧
      (∀ j, j + 1 < n →
        (r.observation_seq.getD b []).getD (j + 1) default =
          ((unroll_from bk agent env addl flags (s0, o0, h0) 0 n).getD j
              default).new_observation.getD b default) ∧
      ∀ i, i < n →
        (r.hidden_seq.getD b []).getD i default =
            ((unroll_from bk agent env addl flags (s0, o0, h0) 0 n).getD i
                default).hidden.getD b default ∧
          (r.policy_seq.getD b []).getD i default =
            ((unroll_from bk agent env addl flags (s0, o0, h0) 0 n).getD i
                default).policy.getD b default ∧
          (r.action_seq.getD b []).getD i default =
            ((unroll_from bk agent env addl flags (s0, o0, h0) 0 n).getD i
                default).action.getD b default := by
  have hsr : sessions_of bk agent env n addl flags s0 o0 h0 = (a, r) :=
    Option.some.inj
      ((get_sessions_eq bk agent env n bs is io ih addl flags s0 o0 h0 hs ho hh).symm.trans
        hr)
  have hrr : r = (sessions_of bk agent env n addl flags s0 o0 h0).2 := by rw [hsr]
  have houtlen : (unroll_from bk agent env addl flags (s0, o0, h0) 0 n).length = n :=
    unroll_from_length bk agent env addl flags n (s0, o0, h0) 0
  have hne : unroll_from bk agent env addl flags (s0, o0, h0) 0 n ≠ [] := by
    apply List.ne_nil_of_length_pos
    rw [houtlen]
    omega
  have hstate : r.state_seq = align_axis1 s0 (swapaxes10
      ((unroll_from bk agent env addl flags (s0, o0, h0) 0 n).map
        (fun o => o.new_env_state))) := by
    rw [hrr]
    rfl
  have hobs : r.observation_seq = align_axis1 o0 (swapaxes10
      ((unroll_from bk agent env addl flags (s0, o0, h0) 0 n).map
        (fun o => o.new_observation))) := by
    rw [hrr]
    rfl
  have hhid : r.hidden_seq = swapaxes10
      ((unroll_from bk agent env addl flags (s0, o0, h0) 0 n).map (fun o => o.hidden)) := by
    rw [hrr]
    rfl
  have hpol : r.policy_seq = swapaxes10
      ((unroll_from bk agent env addl flags (s0, o0, h0) 0 n).map (fun o => o.policy)) := by
    rw [hrr]
    rfl
  have hact : r.action_seq = swapaxes10
      ((unroll_from bk agent env addl flags (s0, o0, h0) 0 n).map (fun o => o.action)) := by
    rw [hrr]
    rfl
  refine ⟨?_, ?_, ?_, ?_, ?_, ?_, ?_⟩
  · rw [hstate, align_row_length s0 (unroll_from bk agent env addl flags (s0, o0, h0) 0 n)
      (fun o => o.new_env_state) B b hne (fun o hoo => (hrect o hoo).1) hb hB0, houtlen]
  · rw [hobs, align_row_length o0 (unroll_from bk agent env addl flags (s0, o0, h0) 0 n)
      (fun o => o.new_observation) B b hne (fun o hoo => (hrect o hoo).2.1) hb hB1, houtlen]
  · rw [hstate, align_row_getD_zero s0
      (unroll_from bk agent env addl flags (s0, o0, h0) 0 n)
      (fun o => o.new_env_state) B b hne (fun o hoo => (hrect o hoo).1) hb hB0]
  · rw [hobs, align_row_getD_zero o0
      (unroll_from bk agent env addl flags (s0, o0, h0) 0 n)
      (fun o => o.new_observation) B b hne (fun o hoo => (hrect o hoo).2.1) hb hB1]
  · intro j hj
    rw [hstate, align_row_getD_succ s0
      (unroll_from bk agent env addl flags (s0, o0, h0) 0 n)
      (fun o => o.new_env_state) B b j hne (fun o hoo => (hrect o hoo).1) hb hB0
      (by rw [houtlen]; exact hj)]
  · intro j hj
    rw [hobs, align_row_getD_succ o0
      (unroll_from bk agent env addl flags (s0, o0, h0) 0 n)
      (fun o => o.new_observation) B b j hne (fun o hoo => (hrect o hoo).2.1) hb hB1
      (by rw [houtlen]; exact hj)]
  · intro i hi
    refine ⟨?_, ?_, ?_⟩
    · rw [hhid, swap_tm_getD (unroll_from bk agent env addl flags (s0, o0, h0) 0 n)
        (fun o => o.hidden) B b i hne (fun o hoo => (hrect o hoo).2.2.1) hb
        (by rw [houtlen]; exact hi)]
    · rw [hpol, swap_tm_getD (unroll_from bk agent env addl flags (s0, o0, h0) 0 n)
        (fun o => o.policy) B b i hne (fun o hoo => (hrect o hoo).2.2.2.1) hb
        (by rw [houtlen]; exact hi)]
    · rw [hact, swap_tm_getD (unroll_from bk agent env addl flags (s0, o0, h0) 0 n)
        (fun o => o.action) B b i hne (fun o hoo => (hrect o hoo).2.2.2.2) hb
        (by rw [houtlen]; exact hi)]

/-- C4: length invariant: for `session_length ≥ 1`, every row of every
returned sequence — the five core sequences and every extra tracked
sequence — has exactly `session_length` positions along the time axis. -/
theorem C4_length_invariant [Inhabited γ] (bk : Backend L I F γ) (agent : MDPAgent L I γ)
    (env : Environment γ) (n : Nat) (bs : Option Nat) (is io ih : Initial γ)
    (addl : List L) (flags : F) (s0 o0 h0 : List γ)
    (hs : resolve_initial bs (bk.zrow env.state_size) is = some s0)
    (ho : resolve_initial bs (bk.zrow env.observation_size) io = some o0)
    (hh : resolve_initial bs (bk.zrow (bk.output_shape agent.memory)) ih = some h0)
    (a : MDPAgent L I γ) (r : SessionResult γ)
    (hr : get_sessions bk agent env n bs is io ih addl flags = some (a, r))
    (hn : 0 < n) :
    (∀ row ∈ r.state_seq, row.length = n) ∧
      (∀ row ∈ r.observation_seq, row.length = n) ∧
      (∀ row ∈ r.hidden_seq, row.length = n) ∧
      (∀ row ∈ r.policy_seq, row.length = n) ∧
      (∀ row ∈ r.action_seq, row.length = n) ∧
      ∀ eseq ∈ r.additional_output_sequences, ∀ row ∈ eseq, row.length = n := by
  have hsr : sessions_of bk agent env n addl flags s0 o0 h0 = (a, r) :=
    Option.some.inj
      ((get_sessions_eq bk agent env n bs is io ih addl flags s0 o0 h0 hs ho hh).symm.trans
        hr)
  have hrr : r = (sessions_of bk agent env n addl flags s0 o0 h0).2 := by rw [hsr]
  have houtlen : (unroll_from bk agent env addl flags (s0, o0, h0) 0 n).length = n :=
    unroll_from_length bk agent env addl flags n (s0, o0, h0) 0
  have hstate : r.state_seq = align_axis1 s0 (swapaxes10
      ((unroll_from bk agent env addl flags (s0, o0, h0) 0 n).map
        (fun o => o.new_env_state))) := by
    rw [hrr]
    rfl
  have hobs : r.observation_seq = align_axis1 o0 (swapaxes10
      ((unroll_from bk agent env addl flags (s0, o0, h0) 0 n).map
        (fun o => o.new_observation))) := by
    rw [hrr]
    rfl
  have hhid : r.hidden_seq = swapaxes10
      ((unroll_from bk agent env addl flags (s0, o0, h0) 0 n).map (fun o => o.hidden)) := by
    rw [hrr]
    rfl
  have hpol : r.policy_seq = swapaxes10
      ((unroll_from bk agent env addl flags (s0, o0, h0) 0 n).map (fun o => o.policy)) := by
    rw [hrr]
    rfl
  have hact : r.action_seq = swapaxes10
      ((unroll_from bk agent env addl flags (s0, o0, h0) 0 n).map (fun o => o.action)) := by
    rw [hrr]
    rfl
  have hextras : r.additional_output_sequences =
      (extras_tm addl.length (unroll_from bk agent env addl flags (s0, o0, h0) 0 n)).map
        swapaxes10 := by
    rw [hrr]
    rfl
  have haligned : ∀ (init : List γ)
      (f : StepOut γ → List γ) (row : List γ),
      row ∈ align_axis1 init (swapaxes10
        ((unroll_from bk agent env addl flags (s0, o0, h0) 0 n).map f)) →
      row.length = n := by
    intro init f row hrow
    rcases align_axis1_mem init _ row hrow with ⟨i0, sr, hsr', hrow'⟩
    have hsrlen : sr.length = n := by
      have h := swapaxes10_mem_length _ sr hsr'
      rw [List.length_map, houtlen] at h
      exact h
    rw [hrow', List.length_cons, List.length_dropLast, hsrlen]
    omega
  have hswapped : ∀ (f : StepOut γ → List γ) (row : List γ),
      row ∈ swapaxes10
        ((unroll_from bk agent env addl flags (s0, o0, h0) 0 n).map f) →
      row.length = n := by
    intro f row hrow
    have h := swapaxes10_mem_length _ row hrow
    rw [List.length_map, houtlen] at h
    exact h
  refine ⟨?_, ?_, ?_, ?_, ?_, ?_⟩
  · intro row hrow
    rw [hstate] at hrow
    exact haligned s0 (fun o => o.new_env_state) row hrow
  · intro row hrow
    rw [hobs] at hrow
    exact haligned o0 (fun o => o.new_observation) row hrow
  · intro row hrow
    rw [hhid] at hrow
    exact hswapped (fun o => o.hidden) row hrow
  · intro row hrow
    rw [hpol] at hrow
    exact hswapped (fun o => o.policy) row hrow
  · intro row hrow
    rw [hact] at hrow
    exact hswapped (fun o => o.action) row hrow
  · intro eseq hes row hrow
    rw [hextras] at hes
    rcases List.mem_map.mp hes with ⟨x, hx, hxe⟩
    unfold extras_tm at hx
    rcases List.mem_map.mp hx with ⟨j, _, hj⟩
    rw [← hxe] at hrow
    have h := swapaxes10_mem_length x row hrow
    rw [← hj, List.length_map, houtlen] at h
    exact h

/-- C9: extra-output passthrough: requesting `k` additional output layers
makes `get_sessions` return exactly `k` additional sequences after the five
core ones; the `j`-th returned extra sequence is the batch-major stack of the
raw per-tick extra outputs, never realigned the way `state_seq` and
`observation_seq` are; per tick the extra outputs are the requested layers'
evaluations in request order; every extra row has `session_length` positions;
and the five core sequences are identical to those of the same call with no
additional layers requested. -/
theorem C9_extra_passthrough [Inhabited γ] (bk : Backend L I F γ) (agent : MDPAgent L I γ)
    (env : Environment γ) (n : Nat) (bs : Option Nat) (is io ih : Initial γ)
    (addl : List L) (flags : F) (s0 o0 h0 : List γ)
    (hs : resolve_initial bs (bk.zrow env.state_size) is = some s0)
    (ho : resolve_initial bs (bk.zrow env.observation_size) io = some o0)
    (hh : resolve_initial bs (bk.zrow (bk.output_shape agent.memory)) ih = some h0)
    (a1 : MDPAgent L I γ) (r1 : SessionResult γ)
    (h1 : get_sessions bk agent env n bs is io ih addl flags = some (a1, r1))
    (a2 : MDPAgent L I γ) (r2 : SessionResult γ)
    (h2 : get_sessions bk agent env n bs is io ih [] flags = some (a2, r2)) :
    r1.additional_output_sequences.length = addl.length ∧
      (∀ j, j < addl.length →
        r1.additional_output_sequences.getD j [] =
          swapaxes10 ((unroll_from bk agent env addl flags (s0, o0, h0) 0 n).map
            (fun o => o.additional_outputs.getD j []))) ∧
      (∀ lh ob : List γ,
        (get_agent_reaction bk agent lh ob addl flags).additional_outputs =
          addl.map (fun l => bk.evalL l (agent.input_map lh ob) flags)) ∧
      (∀ eseq ∈ r1.additional_output_sequences, ∀ row ∈ eseq, row.length = n) ∧
      r1.state_seq = r2.state_seq ∧ r1.observation_seq = r2.observation_seq ∧
      r1.hidden_seq = r2.hidden_seq ∧ r1.policy_seq = r2.policy_seq ∧
      r1.action_seq = r2.action_seq := by
  have hsr1 : sessions_of bk agent env n addl flags s0 o0 h0 = (a1, r1) :=
    Option.some.inj
      ((get_sessions_eq bk agent env n bs is io ih addl flags s0 o0 h0 hs ho hh).symm.trans
        h1)
  have hrr1 : r1 = (sessions_of bk agent env n addl flags s0 o0 h0).2 := by rw [hsr1]
  have hsr2 : sessions_of bk agent env n [] flags s0 o0 h0 = (a2, r2) :=
    Option.some.inj
      ((get_sessions_eq bk agent env n bs is io ih [] flags s0 o0 h0 hs ho hh).symm.trans
        h2)
  have hrr2 : r2 = (sessions_of bk agent env n [] flags s0 o0 h0).2 := by rw [hsr2]
  have houtlen : (unroll_from bk agent env addl flags (s0, o0, h0) 0 n).length = n :=
    unroll_from_length bk agent env addl flags n (s0, o0, h0) 0
  have hstrip := unroll_strip_eq bk agent env addl flags n (s0, o0, h0) 0
  have hproj : ∀ f : StepOut γ → List γ, f ∘ core_of = f →
      (unroll_from bk agent env addl flags (s0, o0, h0) 0 n).map f =
        (unroll_from bk agent env [] flags (s0, o0, h0) 0 n).map f := by
    intro f hf
    rw [← hf, ← List.map_map, ← List.map_map, hstrip]
  have hextras1 : r1.additional_output_sequences =
      (extras_tm addl.length (unroll_from bk agent env addl flags (s0, o0, h0) 0 n)).map
        swapaxes10 := by
    rw [hrr1]
    rfl
  refine ⟨?_, ?_, ?_, ?_, ?_, ?_, ?_, ?_, ?_⟩
  · rw [hextras1, List.length_map]
    simp [extras_tm]
  · intro j hj
    rw [hextras1,
      getD_map swapaxes10
        (extras_tm addl.length (unroll_from bk agent env addl flags (s0, o0, h0) 0 n)) j
        (by simpa [extras_tm] using hj) [] []]
    congr 1
    unfold extras_tm
    rw [getD_map _ (List.range addl.length) j (by simpa using hj) 0 [],
      getD_range addl.length j hj 0]
  · intro lh ob
    rfl
  · intro eseq hes row hrow
    rw [hextras1] at hes
    rcases List.mem_map.mp hes with ⟨x, hx, hxe⟩
    unfold extras_tm at hx
    rcases List.mem_map.mp hx with ⟨j, _, hj⟩
    rw [← hxe] at hrow
    have h := swapaxes10_mem_length x row hrow
    rw [← hj, List.length_map, houtlen] at h
    exact h
  · have e1 : r1.state_seq = align_axis1 s0 (swapaxes10
        ((unroll_from bk agent env addl flags (s0, o0, h0) 0 n).map
          (fun o => o.new_env_state))) := by
      rw [hrr1]
      rfl
    have e2 : r2.state_seq = align_axis1 s0 (swapaxes10
        ((unroll_from bk agent env [] flags (s0, o0, h0) 0 n).map
          (fun o => o.new_env_state))) := by
      rw [hrr2]
      rfl
    rw [e1, e2, hproj (fun o => o.new_env_state) rfl]
  · have e1 : r1.observation_seq = align_axis1 o0 (swapaxes10
        ((unroll_from bk agent env addl flags (s0, o0, h0) 0 n).map
          (fun o => o.new_observation))) := by
      rw [hrr1]
      rfl
    have e2 : r2.observation_seq = align_axis1 o0 (swapaxes10
        ((unroll_from bk agent env [] flags (s0, o0, h0) 0 n).map
          (fun o => o.new_observation))) := by
      rw [hrr2]
      rfl
    rw [e1, e2, hproj (fun o => o.new_observation) rfl]
  · have e1 : r1.hidden_seq = swapaxes10
        ((unroll_from bk agent env addl flags (s0, o0, h0) 0 n).map
          (fun o => o.hidden)) := by
      rw [hrr1]
      rfl
    have e2 : r2.hidden_seq = swapaxes10
        ((unroll_from bk agent env [] flags (s0, o0, h0) 0 n).map
          (fun o => o.hidden)) := by
      rw [hrr2]
      rfl
    rw [e1, e2, hproj (fun o => o.hidden) rfl]
  · have e1 : r1.policy_seq = swapaxes10
        ((unroll_from bk agent env addl flags (s0, o0, h0) 0 n).map
          (fun o => o.policy)) := by
      rw [hrr1]
      rfl
    have e2 : r2.policy_seq = swapaxes10
        ((unroll_from bk agent env [] flags (s0, o0, h0) 0 n).map
          (fun o => o.policy)) := by
      rw [hrr2]
      rfl
    rw [e1, e2, hproj (fun o => o.policy) rfl]
  · have e1 : r1.action_seq = swapaxes10
        ((unroll_from bk agent env addl flags (s0, o0, h0) 0 n).map
          (fun o => o.action)) := by
      rw [hrr1]
      rfl
    have e2 : r2.action_seq = swapaxes10
        ((unroll_from bk agent env [] flags (s0, o0, h0) 0 n).map
          (fun o => o.action)) := by
      rw [hrr2]
      rfl
    rw [e1, e2, hproj (fun o => o.action) rfl]

/-- C10: the environment state and observation produced by the final tick's
transition are removed by the alignment crop: per batch row, the returned
`state_seq` and `observation_seq` consist of the initial value followed by the
raw transition results of ticks `0 .. session_length - 2` only, while the raw
unroll has `session_length` recorded transitions — so the recorded output of
tick `session_length - 1` (the post-final-action environment state and
observation) occupies no position of the returned trajectory. -/
theorem C10_final_transition_cropped [Inhabited γ] (bk : Backend L I F γ)
    (agent : MDPAgent L I γ) (env : Environment γ) (n : Nat) (bs : Option Nat)
    (is io ih : Initial γ) (addl : List L) (flags : F) (s0 o0 h0 : List γ)
    (hs : resolve_initial bs (bk.zrow env.state_size) is = some s0)
    (ho : resolve_initial bs (bk.zrow env.observation_size) io = some o0)
    (hh : resolve_initial bs (bk.zrow (bk.output_shape agent.memory)) ih = some h0)
    (a : MDPAgent L I γ) (r : SessionResult γ)
    (hr : get_sessions bk agent env n bs is io ih addl flags = some (a, r))
    (B b : Nat) (hB0 : s0.length = B) (hB1 : o0.length = B)
    (hrect : ∀ o ∈ unroll_from bk agent env addl flags (s0, o0, h0) 0 n,
      o.new_env_state.length = B ∧ o.new_observation.length = B ∧
        o.hidden.length = B ∧ o.policy.length = B ∧ o.action.length = B)
    (hb : b < B) (hn : 0 < n) :
    r.state_seq.getD b [] =
        s0.getD b default ::
          ((unroll_from bk agent env addl flags (s0, o0, h0) 0 n).map
            (fun o => o.new_env_state.getD b default)).take (n - 1) ∧
      r.observation_seq.getD b [] =
        o0.getD b default ::
          ((unroll_from bk agent env addl flags (s0, o0, h0) 0 n).map
            (fun o => o.new_observation.getD b default)).take (n - 1) ∧
      ((unroll_from bk agent env addl flags (s0, o0, h0) 0 n).map
        (fun o => o.new_env_state.getD b default)).length = n ∧
      ((unroll_from bk agent env addl flags (s0, o0, h0) 0 n).map
        (fun o => o.new_observation.getD b default)).length = n := by
  have hsr : sessions_of bk agent env n addl flags s0 o0 h0 = (a, r) :=
    Option.some.inj
      ((get_sessions_eq bk agent env n bs is io ih addl flags s0 o0 h0 hs ho hh).symm.trans
        hr)
  have hrr : r = (sessions_of bk agent env n addl flags s0 o0 h0).2 := by rw [hsr]
  have houtlen : (unroll_from bk agent env addl flags (s0, o0, h0) 0 n).length = n :=
    unroll_from_length bk agent env addl flags n (s0, o0, h0) 0
  have hne : unroll_from bk agent env addl flags (s0, o0, h0) 0 n ≠ [] := by
    apply List.ne_nil_of_length_pos
    rw [houtlen]
    omega
  have hstate : r.state_seq = align_axis1 s0 (swapaxes10
      ((unroll_from bk agent env addl flags (s0, o0, h0) 0 n).map
        (fun o => o.new_env_state))) := by
    rw [hrr]
    rfl
  have hobs : r.observation_seq = align_axis1 o0 (swapaxes10
      ((unroll_from bk agent env addl flags (s0, o0, h0) 0 n).map
        (fun o => o.new_observation))) := by
    rw [hrr]
    rfl
  refine ⟨?_, ?_, ?_, ?_⟩
  · rw [hstate, align_row_getD s0 (unroll_from bk agent env addl flags (s0, o0, h0) 0 n)
      (fun o => o.new_env_state) B b hne (fun o hoo => (hrect o hoo).1) hb hB0]
    congr 1
    rw [swapaxes10_getD _ b
      (by rw [headD_map_length (fun o => o.new_env_state) _ B hne
        (fun o hoo => (hrect o hoo).1)]; exact hb),
      List.map_map, List.dropLast_eq_take, List.length_map, houtlen]
    rfl
  · rw [hobs, align_row_getD o0 (unroll_from bk agent env addl flags (s0, o0, h0) 0 n)
      (fun o => o.new_observation) B b hne (fun o hoo => (hrect o hoo).2.1) hb hB1]
    congr 1
    rw [swapaxes10_getD _ b
      (by rw [headD_map_length (fun o => o.new_observation) _ B hne
        (fun o hoo => (hrect o hoo).2.1)]; exact hb),
      List.map_map, List.dropLast_eq_take, List.length_map, houtlen]
    rfl
  · rw [List.length_map, houtlen]
  · rw [List.length_map, houtlen]

/-- C1 witness: the synchronization statement at the concrete scenario,
batch row 0, aligned index 3. -/
theorem C1_time_synchronization_witness :
    (((sessions_of cbBackend cbAgent counterEnv 5 [] () [0, 0] [0, 0]
            [0, 0]).2.state_seq.getD 0 []).getD 3 default =
        (carry_from cbBackend cbAgent counterEnv [] () ([0, 0], [0, 0], [0, 0]) 0
            3).1.getD 0 default) ∧
      (((sessions_of cbBackend cbAgent counterEnv 5 [] () [0, 0] [0, 0]
            [0, 0]).2.observation_seq.getD 0 []).getD 3 default =
        (carry_from cbBackend cbAgent counterEnv [] () ([0, 0], [0, 0], [0, 0]) 0
            3).2.1.getD 0 default) ∧
      (((sessions_of cbBackend cbAgent counterEnv 5 [] () [0, 0] [0, 0]
            [0, 0]).2.hidden_seq.getD 0 []).getD 3 default =
        (get_agent_reaction cbBackend cbAgent
            (carry_from cbBackend cbAgent counterEnv [] () ([0, 0], [0, 0], [0, 0]) 0
              3).2.2
            (carry_from cbBackend cbAgent counterEnv [] () ([0, 0], [0, 0], [0, 0]) 0
              3).2.1 [] ()).hidden.getD 0 default) ∧
      (((sessions_of cbBackend cbAgent counterEnv 5 [] () [0, 0] [0, 0]
            [0, 0]).2.policy_seq.getD 0 []).getD 3 default =
        (get_agent_reaction cbBackend cbAgent
            (carry_from cbBackend cbAgent counterEnv [] () ([0, 0], [0, 0], [0, 0]) 0
              3).2.2
            (carry_from cbBackend cbAgent counterEnv [] () ([0, 0], [0, 0], [0, 0]) 0
              3).2.1 [] ()).policy.getD 0 default) ∧
      ((sessions_of cbBackend cbAgent counterEnv 5 [] () [0, 0] [0, 0]
            [0, 0]).2.action_seq.getD 0 []).getD 3 default =
        (get_agent_reaction cbBackend cbAgent
            (carry_from cbBackend cbAgent counterEnv [] () ([0, 0], [0, 0], [0, 0]) 0
              3).2.2
            (carry_from cbBackend cbAgent counterEnv [] () ([0, 0], [0, 0], [0, 0]) 0
              3).2.1 [] ()).action.getD 0 default :=
  C1_time_synchronization cbBackend cbAgent counterEnv 5 (some 2) Initial.zeros
    Initial.zeros Initial.zeros [] () [0, 0] [0, 0] [0, 0] rfl rfl rfl
    (sessions_of cbBackend cbAgent counterEnv 5 [] () [0, 0] [0, 0] [0, 0]).1
    (sessions_of cbBackend cbAgent counterEnv 5 [] () [0, 0] [0, 0] [0, 0]).2 rfl
    2 0 3 rfl rfl (by decide) (by decide) (by decide)

/-- C2 witness: the realignment statement at the concrete scenario, batch
row 1. -/
theorem C2_realignment_witness :
    ((sessions_of cbBackend cbAgent counterEnv 5 [] () [0, 0] [0, 0]
          [0, 0]).2.state_seq.getD 1 []).length = 5 ∧
      ((sessions_of cbBackend cbAgent counterEnv 5 [] () [0, 0] [0, 0]
          [0, 0]).2.observation_seq.getD 1 []).length = 5 ∧
      ((sessions_of cbBackend cbAgent counterEnv 5 [] () [0, 0] [0, 0]
          [0, 0]).2.state_seq.getD 1 []).getD 0 default = [0, 0].getD 1 default ∧
      ((sessions_of cbBackend cbAgent counterEnv 5 [] () [0, 0] [0, 0]
          [0, 0]).2.observation_seq.getD 1 []).getD 0 default = [0, 0].getD 1 default ∧
      (∀ j, j + 1 < 5 →
        ((sessions_of cbBackend cbAgent counterEnv 5 [] () [0, 0] [0, 0]
            [0, 0]).2.state_seq.getD 1 []).getD (j + 1) default =
          ((unroll_from cbBackend cbAgent counterEnv [] () ([0, 0], [0, 0], [0, 0]) 0
              5).getD j default).new_env_state.getD 1 default) ∧
      (∀ j, j + 1 < 5 →
        ((sessions_of cbBackend cbAgent counterEnv 5 [] () [0, 0] [0, 0]
            [0, 0]).2.observation_seq.getD 1 []).getD (j + 1) default =
          ((unroll_from cbBackend cbAgent counterEnv [] () ([0, 0], [0, 0], [0, 0]) 0
              5).getD j default).new_observation.getD 1 default) ∧
      ∀ i, i < 5 →
        ((sessions_of cbBackend cbAgent counterEnv 5 [] () [0, 0] [0, 0]
            [0, 0]).2.hidden_seq.getD 1 []).getD i default =
            ((unroll_from cbBackend cbAgent counterEnv [] () ([0, 0], [0, 0], [0, 0]) 0
                5).getD i default).hidden.getD 1 default ∧
          ((sessions_of cbBackend cbAgent counterEnv 5 [] () [0, 0] [0, 0]
              [0, 0]).2.policy_seq.getD 1 []).getD i default =
            ((unroll_from cbBackend cbAgent counterEnv [] () ([0, 0], [0, 0], [0, 0]) 0
                5).getD i default).policy.getD 1 default ∧
          ((sessions_of cbBackend cbAgent counterEnv 5 [] () [0, 0] [0, 0]
              [0, 0]).2.action_seq.getD 1 []).getD i default =
            ((unroll_from cbBackend cbAgent counterEnv [] () ([0, 0], [0, 0], [0, 0]) 0
                5).getD i default).action.getD 1 default :=
  C2_realignment cbBackend cbAgent counterEnv 5 (some 2) Initial.zeros Initial.zeros
    Initial.zeros [] () [0, 0] [0, 0] [0, 0] rfl rfl rfl
    (sessions_of cbBackend cbAgent counterEnv 5 [] () [0, 0] [0, 0] [0, 0]).1
    (sessions_of cbBackend cbAgent counterEnv 5 [] () [0, 0] [0, 0] [0, 0]).2 rfl
    2 1 rfl rfl (by decide) (by decide) (by decide)

/-- C4 witness: the length invariant at the concrete scenario. -/
theorem C4_length_invariant_witness :
    (∀ row ∈ (sessions_of cbBackend cbAgent counterEnv 5 [] () [0, 0] [0, 0]
        [0, 0]).2.state_seq, row.length = 5) ∧
      (∀ row ∈ (sessions_of cbBackend cbAgent counterEnv 5 [] () [0, 0] [0, 0]
          [0, 0]).2.observation_seq, row.length = 5) ∧
      (∀ row ∈ (sessions_of cbBackend cbAgent counterEnv 5 [] () [0, 0] [0, 0]
          [0, 0]).2.hidden_seq, row.length = 5) ∧
      (∀ row ∈ (sessions_of cbBackend cbAgent counterEnv 5 [] () [0, 0] [0, 0]
          [0, 0]).2.policy_seq, row.length = 5) ∧
      (∀ row ∈ (sessions_of cbBackend cbAgent counterEnv 5 [] () [0, 0] [0, 0]
          [0, 0]).2.action_seq, row.length = 5) ∧
      ∀ eseq ∈ (sessions_of cbBackend cbAgent counterEnv 5 [] () [0, 0] [0, 0]
          [0, 0]).2.additional_output_sequences, ∀ row ∈ eseq, row.length = 5 :=
  C4_length_invariant cbBackend cbAgent counterEnv 5 (some 2) Initial.zeros
    Initial.zeros Initial.zeros [] () [0, 0] [0, 0] [0, 0] rfl rfl rfl
    (sessions_of cbBackend cbAgent counterEnv 5 [] () [0, 0] [0, 0] [0, 0]).1
    (sessions_of cbBackend cbAgent counterEnv 5 [] () [0, 0] [0, 0] [0, 0]).2 rfl
    (by decide)

/-- C9 witness: the extra-output passthrough statement at the concrete
scenario with two extra layers requested. -/
theorem C9_extra_passthrough_witness :
    (sessions_of cbBackend cbAgent counterEnv 5 [3, 4] () [0, 0] [0, 0]
        [0, 0]).2.additional_output_sequences.length = [3, 4].length ∧
      (∀ j, j < [3, 4].length →
        (sessions_of cbBackend cbAgent counterEnv 5 [3, 4] () [0, 0] [0, 0]
            [0, 0]).2.additional_output_sequences.getD j [] =
          swapaxes10 ((unroll_from cbBackend cbAgent counterEnv [3, 4] ()
              ([0, 0], [0, 0], [0, 0]) 0 5).map
            (fun o => o.additional_outputs.getD j []))) ∧
      (∀ lh ob : List Nat,
        (get_agent_reaction cbBackend cbAgent lh ob [3, 4] ()).additional_outputs =
          [3, 4].map (fun l => cbBackend.evalL l (cbAgent.input_map lh ob) ())) ∧
      (∀ eseq ∈ (sessions_of cbBackend cbAgent counterEnv 5 [3, 4] () [0, 0] [0, 0]
          [0, 0]).2.additional_output_sequences, ∀ row ∈ eseq, row.length = 5) ∧
      (sessions_of cbBackend cbAgent counterEnv 5 [3, 4] () [0, 0] [0, 0]
          [0, 0]).2.state_seq =
        (sessions_of cbBackend cbAgent counterEnv 5 [] () [0, 0] [0, 0]
          [0, 0]).2.state_seq ∧
      (sessions_of cbBackend cbAgent counterEnv 5 [3, 4] () [0, 0] [0, 0]
          [0, 0]).2.observation_seq =
        (sessions_of cbBackend cbAgent counterEnv 5 [] () [0, 0] [0, 0]
          [0, 0]).2.observation_seq ∧
      (sessions_of cbBackend cbAgent counterEnv 5 [3, 4] () [0, 0] [0, 0]
          [0, 0]).2.hidden_seq =
        (sessions_of cbBackend cbAgent counterEnv 5 [] () [0, 0] [0, 0]
          [0, 0]).2.hidden_seq ∧
      (sessions_of cbBackend cbAgent counterEnv 5 [3, 4] () [0, 0] [0, 0]
          [0, 0]).2.policy_seq =
        (sessions_of cbBackend cbAgent counterEnv 5 [] () [0, 0] [0, 0]
          [0, 0]).2.policy_seq ∧
      (sessions_of cbBackend cbAgent counterEnv 5 [3, 4] () [0, 0] [0, 0]
          [0, 0]).2.action_seq =
        (sessions_of cbBackend cbAgent counterEnv 5 [] () [0, 0] [0, 0]
          [0, 0]).2.action_seq :=
  C9_extra_passthrough cbBackend cbAgent counterEnv 5 (some 2) Initial.zeros
    Initial.zeros Initial.zeros [3, 4] () [0, 0] [0, 0] [0, 0] rfl rfl rfl
    (sessions_of cbBackend cbAgent counterEnv 5 [3, 4] () [0, 0] [0, 0] [0, 0]).1
    (sessions_of cbBackend cbAgent counterEnv 5 [3, 4] () [0, 0] [0, 0] [0, 0]).2 rfl
    (sessions_of cbBackend cbAgent counterEnv 5 [] () [0, 0] [0, 0] [0, 0]).1
    (sessions_of cbBackend cbAgent counterEnv 5 [] () [0, 0] [0, 0] [0, 0]).2 rfl

/-- C10 witness: the alignment-crop statement at the concrete scenario, batch
row 0. -/
theorem C10_final_transition_cropped_witness :
    (sessions_of cbBackend cbAgent counterEnv 5 [] () [0, 0] [0, 0]
          [0, 0]).2.state_seq.getD 0 [] =
        [0, 0].getD 0 default ::
          ((unroll_from cbBackend cbAgent counterEnv [] () ([0, 0], [0, 0], [0, 0]) 0
              5).map (fun o => o.new_env_state.getD 0 default)).take (5 - 1) ∧
      (sessions_of cbBackend cbAgent counterEnv 5 [] () [0, 0] [0, 0]
            [0, 0]).2.observation_seq.getD 0 [] =
        [0, 0].getD 0 default ::
          ((unroll_from cbBackend cbAgent counterEnv [] () ([0, 0], [0, 0], [0, 0]) 0
              5).map (fun o => o.new_observation.getD 0 default)).take (5 - 1) ∧
      ((unroll_from cbBackend cbAgent counterEnv [] () ([0, 0], [0, 0], [0, 0]) 0
          5).map (fun o => o.new_env_state.getD 0 default)).length = 5 ∧
      ((unroll_from cbBackend cbAgent counterEnv [] () ([0, 0], [0, 0], [0, 0]) 0
          5).map (fun o => o.new_observation.getD 0 default)).length = 5 :=
  C10_final_transition_cropped cbBackend cbAgent counterEnv 5 (some 2) Initial.zeros
    Initial.zeros Initial.zeros [] () [0, 0] [0, 0] [0, 0] rfl rfl rfl
    (sessions_of cbBackend cbAgent counterEnv 5 [] () [0, 0] [0, 0] [0, 0]).1
    (sessions_of cbBackend cbAgent counterEnv 5 [] () [0, 0] [0, 0] [0, 0]).2 rfl
    2 0 rfl rfl (by decide) (by decide) (by decide)

end AgentNet
